import Mathlib

/-!
Verification of the file-ops repository (FastAPI + OnlyOffice integration).

Shallow embedding of `src/config.py` and `src/main.py`:
* JSON values are modelled by `JVal`; Python dicts keep insertion order, so
  objects are association lists.
* Python floats are carried symbolically as their literal text (`JVal.float`);
  no floating-point arithmetic is performed anywhere in the embedded code.
* External collaborators (`json.loads`, JWT encode/verify, the HTTP fetch in
  the callback) are parameters of the embedded functions, mirroring the spec's
  treatment of them as black boxes.
* Exceptions raised by the Python code are modelled with `Except`.
-/

/-- JSON-like values as produced by `json.loads` / manipulated by the code.
Objects are insertion-ordered association lists (Python `dict`).  A float is
carried as its literal text; the embedding never computes with floats. -/
inductive JVal where
  | null : JVal
  | bool (b : Bool) : JVal
  | int (n : Int) : JVal
  | float (lit : String) : JVal
  | str (s : String) : JVal
  | arr (xs : List JVal) : JVal
  | obj (kvs : List (String × JVal)) : JVal

namespace JVal

/-- Association-list lookup (first binding wins, as in a Python dict where
keys are unique). -/
def lookupKV : List (String × JVal) → String → Option JVal
  | [], _ => none
  | (k', v) :: rest, k => if k' = k then some v else lookupKV rest k

/-- Python `d[k] = v` on an insertion-ordered dict: replace an existing
binding in place, otherwise append at the end. -/
def setKV : List (String × JVal) → String → JVal → List (String × JVal)
  | [], k, v => [(k, v)]
  | (k', v') :: rest, k, v =>
    if k' = k then (k, v) :: rest else (k', v') :: setKV rest k v

/-- `d[k]` on a JSON value: `none` both when the key is missing and when the
value is not an object (Python raises KeyError / TypeError; callers map
`none` to the corresponding failure). -/
def jGet : JVal → String → Option JVal
  | .obj kvs, k => lookupKV kvs k
  | _, _ => none

/-- `d[k] = v` on a JSON object (no-op on non-objects, never reached by the
embedded code on non-objects). -/
def jSet : JVal → String → JVal → JVal
  | .obj kvs, k, v => .obj (setKV kvs k v)
  | nonObj, _, _ => nonObj

/-- `k in d` for a JSON object. -/
def jHasKey (v : JVal) (k : String) : Bool :=
  (jGet v k).isSome

/-- Nested lookup along a list of keys. -/
def jGetPath : JVal → List String → Option JVal
  | v, [] => some v
  | v, k :: ks => match jGet v k with
    | some v' => jGetPath v' ks
    | none => none

/-- Python truthiness of a JSON value (`if value:`).  A float literal is
truthy unless it denotes zero: every digit of its mantissa is `0` (literals
such as `inf` / `nan`, which contain letters, are truthy). -/
def pyTruthy : JVal → Bool
  | .null => false
  | .bool b => b
  | .int n => n ≠ 0
  | .float lit =>
    -- float is falsy iff its value is 0.0: no letter (rules out inf/nan) and
    -- no nonzero digit in the mantissa (text before any exponent marker).
    let mantissa := lit.toList.takeWhile (fun c => c ≠ 'e' ∧ c ≠ 'E')
    !((mantissa.all (fun c => !c.isAlpha)) &&
      (mantissa.all (fun c => !(c.isDigit && c ≠ '0'))))
  | .str s => s ≠ ""
  | .arr xs => !xs.isEmpty
  | .obj kvs => !kvs.isEmpty

end JVal

/-! ### Python numeric-literal parsing (`int(...)` / `float(...)` on strings) -/

namespace Py

/-- ASCII whitespace stripped by Python's `int`/`float` string conversion. -/
def isPyWs (c : Char) : Bool :=
  c = ' ' || c = '\t' || c = '\n' || c = '\x0d' || c = '\x0b' || c = '\x0c'

/-- `str.strip()`-style stripping of surrounding whitespace. -/
def stripWs (cs : List Char) : List Char :=
  (((cs.dropWhile isPyWs).reverse).dropWhile isPyWs).reverse

/-- Tail of a Python `digitpart` after its first digit: digits with single
underscores allowed only between digits. -/
def digRest : List Char → Bool
  | [] => true
  | '_' :: c :: cs => c.isDigit && digRest cs
  | ['_'] => false
  | c :: cs => c.isDigit && digRest cs

/-- Python grammar `digitpart ::= digit (["_"] digit)*`. -/
def digitpart : List Char → Bool
  | [] => false
  | c :: cs => c.isDigit && digRest cs

/-- Drop an optional leading sign. -/
def dropSign : List Char → List Char
  | '+' :: cs => cs
  | '-' :: cs => cs
  | cs => cs

/-- Whether `int(value)` succeeds on a decimal string (CPython: optional
whitespace, optional sign, a digitpart). -/
def intParses (value : String) : Bool :=
  digitpart (dropSign (stripWs value.toList))

/-- Numeric value of a digitpart, accumulated left to right (underscores
skipped). -/
def digitsValAux (acc : Nat) : List Char → Nat
  | [] => acc
  | '_' :: cs => digitsValAux acc cs
  | c :: cs => digitsValAux (acc * 10 + (c.toNat - 48)) cs

/-- Numeric value of a digitpart. -/
def digitsVal (cs : List Char) : Nat :=
  digitsValAux 0 cs

/-- Value returned by `int(value)` (meaningful when `intParses value`). -/
def intVal (value : String) : Int :=
  let cs := stripWs value.toList
  match cs with
  | '-' :: rest => -(digitsVal rest : Int)
  | '+' :: rest => (digitsVal rest : Int)
  | rest => (digitsVal rest : Int)

/-- Case-insensitive match of the unsigned part of a float literal against
`inf`, `infinity`, `nan`. -/
def isInfNan (cs : List Char) : Bool :=
  let low := cs.map Char.toLower
  low = ['i', 'n', 'f'] || low = ['i', 'n', 'f', 'i', 'n', 'i', 't', 'y'] ||
    low = ['n', 'a', 'n']

/-- Split a list at the first occurrence of a separator satisfying `p`:
returns `(before, after)` with the separator dropped, or `none`. -/
def splitFirst (p : Char → Bool) : List Char → Option (List Char × List Char)
  | [] => none
  | c :: cs =>
    if p c then some ([], cs)
    else match splitFirst p cs with
      | some (a, b) => some (c :: a, b)
      | none => none

/-- Python grammar for the mantissa of a float literal:
`pointfloat | digitpart` where
`pointfloat ::= [digitpart] "." digitpart | digitpart "."`. -/
def mantissaOk (cs : List Char) : Bool :=
  match splitFirst (fun c => c = '.') cs with
  | none => digitpart cs
  | some (a, b) =>
    -- at most one dot
    (b.all (fun c => c ≠ '.')) &&
    !(a.isEmpty && b.isEmpty) &&
    (a.isEmpty || digitpart a) && (b.isEmpty || digitpart b)

/-- Whether `float(value)` succeeds (CPython: optional whitespace, optional
sign, then `inf`/`infinity`/`nan` (case-insensitive) or
`mantissa [("e"|"E") [sign] digitpart]`). -/
def floatParses (value : String) : Bool :=
  let body := dropSign (stripWs value.toList)
  isInfNan body ||
    (match splitFirst (fun c => c = 'e' || c = 'E') body with
     | none => mantissaOk body
     | some (m, ex) => mantissaOk m && digitpart (dropSign ex))

/-- Python `str.lower()` (ASCII). -/
def lowerAscii (s : String) : String :=
  (s.data.map Char.toLower).asString

/-- Accumulating worker for `splitChar`: splits at every separator. -/
def splitCharAux (sep : Char) (cur : List Char) : List Char → List String
  | [] => [cur.reverse.asString]
  | c :: cs =>
    if c = sep then cur.reverse.asString :: splitCharAux sep [] cs
    else splitCharAux sep (c :: cur) cs

/-- Python `s.split(sep)` for a one-character separator (as in
`key.split('.')`): adjacent separators and string ends yield empty parts. -/
def splitChar (sep : Char) (s : String) : List String :=
  splitCharAux sep [] s.data

/-- Python `s.startswith('[') or s.startswith('{')`: first character is an
opening bracket or brace. -/
def startsBracket (s : String) : Bool :=
  match s.data with
  | c :: _ => c = '[' || c = '{'
  | [] => false

/-- Python `s[1:]`: drop the first character. -/
def dropFirstChar (s : String) : String :=
  (s.data.drop 1).asString

end Py

/-! ### `src/config.py`: the Configuration Store -/

namespace Config

open JVal

/-- Environment-variable name for a dotted key (`Config.get`, line 64):
uppercase and replace dots with underscores. -/
def envKey (key : String) : String :=
  ((key.data.map Char.toUpper).map (fun c => if c = '.' then '_' else c)).asString

/-- `Config._convert_env_value` (config.py lines 100-123), with `json.loads`
abstracted as a parameter.  Order as in the source: boolean literals; then a
single numeric attempt dispatched on whether the text contains a dot
(`float(value)` when it does, `int(value)` otherwise), falling through on
parse failure; then a JSON attempt only for text starting with a bracket or
brace; else the raw string. -/
def convertEnvValue (jsonLoads : String → Option JVal) (value : String) : JVal :=
  if Py.lowerAscii value = "true" || Py.lowerAscii value = "false" then
    .bool (Py.lowerAscii value = "true")
  else
    let numeric : Option JVal :=
      if value.data.contains '.' then
        if Py.floatParses value then some (.float value) else none
      else
        if Py.intParses value then some (.int (Py.intVal value)) else none
    match numeric with
    | some v => v
    | none =>
      if Py.startsBracket value then
        match jsonLoads value with
        | some j => j
        | none => .str value
      else .str value

/-- The coercion rule as the specification states it (claim C4): boolean
literals; else a value parseable as an integer yields an integer; else a
value parseable as a float yields a float; else valid JSON array/object text
yields the parsed structure; else the raw string. -/
def convertEnvValueClaim (jsonLoads : String → Option JVal) (value : String) : JVal :=
  if Py.lowerAscii value = "true" || Py.lowerAscii value = "false" then
    .bool (Py.lowerAscii value = "true")
  else if Py.intParses value then .int (Py.intVal value)
  else if Py.floatParses value then .float value
  else
    match jsonLoads value with
    | some (.arr xs) => .arr xs
    | some (.obj kvs) => .obj kvs
    | _ => .str value

/-- The coercion rule as amended to match the code: boolean literals; then a
single numeric attempt — if the text contains a dot it is coerced to a float
when parseable as one, otherwise it is coerced to an integer when parseable
as one — falling through on failure; then text that starts with a bracket or
brace and parses as JSON yields the parsed structure; else the raw string. -/
def convertEnvValueAmended (jsonLoads : String → Option JVal) (value : String) : JVal :=
  if Py.lowerAscii value = "true" || Py.lowerAscii value = "false" then
    .bool (Py.lowerAscii value = "true")
  else if value.data.contains '.' then
    if Py.floatParses value then .float value
    else if Py.startsBracket value then
      match jsonLoads value with
      | some j => j
      | none => .str value
    else .str value
  else if Py.intParses value then .int (Py.intVal value)
  else if Py.startsBracket value then
    match jsonLoads value with
    | some j => j
    | none => .str value
  else .str value

/-- The nested-mapping walk of `Config.get` (config.py lines 71-80): descend
through the dot-separated path; return `default` as soon as a segment is
missing or a non-mapping intermediate is encountered. -/
def getPath (v : JVal) (ks : List String) (default : JVal) : JVal :=
  match ks with
  | [] => v
  | k :: rest =>
    match v with
    | .obj kvs =>
      match lookupKV kvs k with
      | some v' => getPath v' rest default
      | none => default
    | _ => default

/-- `Config.get` (config.py lines 52-80): environment override first (with
type coercion), else the file-backed tree walk. -/
def cfgGet (env : String → Option String) (jsonLoads : String → Option JVal)
    (tree : JVal) (key : String) (default : JVal) : JVal :=
  match env (envKey key) with
  | some v => convertEnvValue jsonLoads v
  | none => getPath tree (Py.splitChar '.' key) default

/-- `Config.set`'s walk (config.py lines 90-98) on the already-split key.
Missing intermediates are created as fresh mappings; an existing non-mapping
intermediate (or a non-mapping node at the final assignment) makes the
Python code raise `TypeError`, modelled as `Except.error ()`. -/
def setPath : JVal → List String → JVal → Except Unit JVal
  | .obj kvs, [k], v => .ok (.obj (setKV kvs k v))
  | .obj kvs, k :: rest, v =>
    let sub := match lookupKV kvs k with
      | some s => s
      | none => .obj []
    match setPath sub rest v with
    | .ok s' => .ok (.obj (setKV kvs k s'))
    | .error e => .error e
  | _, _, _ => .error ()

/-- `Config.set` (config.py lines 82-98). -/
def setConfig (tree : JVal) (key : String) (v : JVal) : Except Unit JVal :=
  setPath tree (Py.splitChar '.' key) v

/-- Whether the `Config.set` walk hits an existing intermediate segment bound
to a non-mapping value (the argument is the list of intermediate segments,
i.e. the dotted key without its final segment). -/
def blockedPath : JVal → List String → Bool
  | _, [] => false
  | .obj kvs, k :: rest =>
    match lookupKV kvs k with
    | none => false
    | some (.obj kvs') => blockedPath (.obj kvs') rest
    | some _ => true
  | _, _ :: _ => true

/-- `Config._get_default_config` (config.py lines 125-173). -/
def defaultConfig : JVal := .obj [
  ("server", .obj [
    ("host", .str "10.0.51.143"),
    ("port", .int 8000),
    ("debug", .bool false)]),
  ("onlyoffice", .obj [
    ("server_url", .str "http://10.0.51.143:8080"),
    ("secret", .str "wIUxuAv0mXxom895nEGPKG3Bw3hm"),
    ("api_js_url", .str "http://10.0.51.143:8080/web-apps/apps/api/documents/api.js"),
    ("jwt_enabled", .bool true),
    ("allow_private_ip", .bool true),
    ("allow_meta_ip", .bool true),
    ("use_unauthorized_storage", .bool true)]),
  ("storage", .obj [
    ("upload_directory", .str "uploads"),
    ("max_file_size", .int 104857600),
    ("allowed_extensions", .arr [.str ".docx", .str ".xlsx", .str ".pptx",
      .str ".doc", .str ".xls", .str ".ppt", .str ".txt", .str ".pdf"])]),
  ("security", .obj [
    ("cors_origins", .arr [.str "*"]),
    ("cors_credentials", .bool true),
    ("cors_methods", .arr [.str "*"]),
    ("cors_headers", .arr [.str "*"])]),
  ("ui", .obj [
    ("language", .str "zh-CN"),
    ("title", .str "OnlyOffice Document Editor"),
    ("subtitle", .str "在线文档编辑和协作平台"),
    ("theme", .str "default")]),
  ("editor", .obj [
    ("default_user_id", .str "user1"),
    ("default_user_name", .str "User"),
    ("auto_save", .bool true),
    ("collaborative", .bool true),
    ("comments", .bool true),
    ("download", .bool true),
    ("print", .bool true)]),
  ("network", .obj [
    ("timeout", .int 30),
    ("retry_attempts", .int 3),
    ("connection_check_interval", .int 5000)])]

/-- On-disk state of `config.json` as seen by `load_config`/`save_config`:
absent, present but unparseable, or holding a parsed tree (the
`json.dump`/`json.load` round trip of the standard library is identity at
this parsed level). -/
inductive ConfigFile where
  | missing : ConfigFile
  | corrupt : ConfigFile
  | good (tree : JVal) : ConfigFile

/-- The tree `Config.load_config` (config.py lines 26-41) leaves in
`self._config`: the parsed file when readable, the default tree otherwise. -/
def loadConfig : ConfigFile → JVal
  | .good t => t
  | .corrupt => defaultConfig
  | .missing => defaultConfig

/-- `Config.save_config` (config.py lines 43-50): serialize the in-memory
tree to the configuration file. -/
def saveConfig (tree : JVal) : ConfigFile :=
  .good tree

end Config

/-! ### Decimal representation of naturals (Python `str(int)` / f-strings) -/

namespace Py

/-- The ASCII digit character for `d < 10`. -/
def digitChar10 (d : Nat) : Char :=
  Char.ofNat (48 + d)

/-- Base-10 digits of `n`, least significant first, with explicit fuel so the
definition is structural (and kernel-reducible). -/
def toDigitsRev : Nat → Nat → List Nat
  | 0, _ => []
  | fuel + 1, n => if n = 0 then [] else n % 10 :: toDigitsRev fuel (n / 10)

/-- Python's decimal string for a natural number (`str(n)` / `f"{n}"`). -/
def decimalRepr (n : Nat) : String :=
  if n = 0 then "0"
  else (((toDigitsRev n n).reverse).map digitChar10).asString

end Py

/-! ### `src/main.py`: upload, listing, session configs, callback -/

namespace Main

open JVal Config

/-- `pathlib.Path(p).suffix`: the last dot-suffix of the final path
component; a dot in first or last position yields no suffix (CPython:
`0 < i < len(name) - 1`). -/
def pySuffix (filename : String) : String :=
  let name := ((Py.splitChar '/' filename).filter (fun s => s ≠ "")).getLastD ""
  let cs := name.toList
  match (cs.reverse).findIdx? (fun x => x = '.') with
  | some j =>
    let i := cs.length - 1 - j
    if 0 < i ∧ i < cs.length - 1 then (cs.drop i).asString else ""
  | none => ""

/-- Python `str()` of a JSON value as interpolated by an f-string.  Container
values are not rendered faithfully (no claim feeds a container into an
f-string); scalars follow Python's formatting. -/
def pyStr : JVal → String
  | .null => "None"
  | .bool b => if b then "True" else "False"
  | .int n => if n < 0 then "-" ++ Py.decimalRepr n.natAbs else Py.decimalRepr n.natAbs
  | .float lit => lit
  | .str s => s
  | .arr _ => "<list>"
  | .obj _ => "<dict>"

/-- Document-type inference from the lowercased extension
(main.py lines 195-200 and 253-258). -/
def documentTypeOf (ext : String) : String :=
  if ext = ".xlsx" || ext = ".xls" then "cell"
  else if ext = ".pptx" || ext = ".ppt" then "slide"
  else "word"

/-- Contents of one file in the upload directory: an uploaded binary, or a
metadata sidecar held at the parsed-JSON level (the `json.dumps`/`json.loads`
round trip of the standard library is identity at this level). -/
inductive FileData where
  | bin (content : String) : FileData
  | meta (m : JVal) : FileData

/-- The upload directory: an insertion-ordered map from file name to
contents. -/
abbrev FileStore := List (String × FileData)

/-- Lookup a file by name. -/
def fsLookup : FileStore → String → Option FileData
  | [], _ => none
  | (k', v) :: rest, k => if k' = k then some v else fsLookup rest k

/-- Write a file: replace in place when the name exists, else append. -/
def fsWrite : FileStore → String → FileData → FileStore
  | [], k, v => [(k, v)]
  | (k', v') :: rest, k, v =>
    if k' = k then (k, v) :: rest else (k', v') :: fsWrite rest k v

/-- `upload_file` (main.py lines 90-120).  `fileId` stands for the generated
`uuid.uuid4()` and `now` for `datetime.now().isoformat()`, both inputs of the
embedding.  An empty filename is the 400 rejection. -/
def uploadFile (store : FileStore) (fileId : String) (filename : String)
    (content : String) (now : String) : Except Unit (FileStore × String) :=
  if filename = "" then .error ()
  else
    let ext := pySuffix filename
    let storedName := fileId ++ ext
    let store1 := fsWrite store storedName (.bin content)
    let metadata : JVal := .obj [
      ("id", .str fileId),
      ("original_name", .str filename),
      ("stored_name", .str storedName),
      ("upload_time", .str now),
      ("size", .int content.length)]
    let store2 := fsWrite store1 (fileId ++ ".json") (.meta metadata)
    .ok (store2, fileId)

/-- One iteration of the `list_files` loop body (main.py lines 127-135):
parse a sidecar's text and project the summary fields.  A sidecar that fails
to parse (`json.loads` raises) or lacks a required field (`KeyError`) is an
uncaught exception, modelled as `Except.error ()`. -/
def summarize (jsonLoads : String → Option JVal) (content : String) :
    Except Unit JVal :=
  match jsonLoads content with
  | none => .error ()
  | some m =>
    match jGet m "id", jGet m "original_name", jGet m "upload_time",
        jGet m "size" with
    | some i, some n, some t, some s =>
      .ok (.obj [("id", i), ("name", n), ("upload_time", t), ("size", s)])
    | _, _, _, _ => .error ()

/-- Sort key of `list_files`: the `upload_time` field (always a string for
summaries produced by `upload_file`; heterogeneous key types, which make
Python's `sorted` raise, are not modelled). -/
def uploadTimeKey (v : JVal) : String :=
  match jGet v "upload_time" with
  | some (.str s) => s
  | _ => ""

/-- Stable descending insertion for `sorted(..., reverse=True)`. -/
def insertDesc (x : JVal) : List JVal → List JVal
  | [] => [x]
  | y :: ys =>
    if uploadTimeKey x < uploadTimeKey y then y :: insertDesc x ys
    else x :: y :: ys

/-- `sorted(files, key=lambda x: x["upload_time"], reverse=True)`. -/
def sortDesc : List JVal → List JVal
  | [] => []
  | x :: xs => insertDesc x (sortDesc xs)

/-- The `for metadata_file in UPLOAD_DIR.glob(...)` loop of `list_files`:
summaries accumulate in order; the first failing sidecar propagates its
exception. -/
def collectSummaries (jsonLoads : String → Option JVal) :
    List String → Except Unit (List JVal)
  | [] => .ok []
  | c :: cs =>
    match summarize jsonLoads c with
    | .error e => .error e
    | .ok v =>
      match collectSummaries jsonLoads cs with
      | .error e => .error e
      | .ok vs => .ok (v :: vs)

/-- `list_files` (main.py lines 122-137) over the texts of the `*.json`
sidecars found in the upload directory: each is parsed and summarized in
turn; the first failure propagates (the endpoint has no handler for it). -/
def listFiles (jsonLoads : String → Option JVal) (contents : List String) :
    Except Unit (List JVal) :=
  match collectSummaries jsonLoads contents with
  | .ok xs => .ok (sortDesc xs)
  | .error e => .error e

/-- `config.onlyoffice_secret` (config.py lines 195-198). -/
def secretVal (env : String → Option String) (jsonLoads : String → Option JVal)
    (tree : JVal) : JVal :=
  cfgGet env jsonLoads tree "onlyoffice.secret"
    (.str "wIUxuAv0mXxom895nEGPKG3Bw3hm")

/-- `config.server_url` (config.py lines 185-188):
`http://{server.host}:{server.port}` over `get` with literal defaults. -/
def serverUrl (env : String → Option String) (jsonLoads : String → Option JVal)
    (tree : JVal) : String :=
  "http://" ++ pyStr (cfgGet env jsonLoads tree "server.host" (.str "10.0.51.143"))
    ++ ":" ++ pyStr (cfgGet env jsonLoads tree "server.port" (.int 8000))

/-- Whether the two session-config handlers attach a JWT (main.py lines 228
and 307): non-falsy secret and non-falsy `onlyoffice.jwt_enabled` (default
`True`). -/
def jwtSigningOn (env : String → Option String) (jsonLoads : String → Option JVal)
    (tree : JVal) : Bool :=
  pyTruthy (secretVal env jsonLoads tree) &&
    pyTruthy (cfgGet env jsonLoads tree "onlyoffice.jwt_enabled" (.bool true))

/-- `get_editor_config` (main.py lines 183-239) after the 404 existence
check: `metadata` is the parsed sidecar, `nowSecs` is `int(time.time())`,
`genToken` is the JWT encoder (black box).  A sidecar without a string
`original_name` makes the handler raise (`KeyError`/`TypeError`), modelled
as `Except.error ()`. -/
def getEditorConfig (env : String → Option String)
    (jsonLoads : String → Option JVal) (tree : JVal) (genToken : JVal → String)
    (fileId : String) (metadata : JVal) (nowSecs : Nat) : Except Unit JVal :=
  match jGet metadata "original_name" with
  | some (.str name) =>
    let ext := Py.lowerAscii (pySuffix name)
    let docType := documentTypeOf ext
    let key := "edit_" ++ fileId ++ "_" ++ Py.decimalRepr nowSecs
    let sUrl := serverUrl env jsonLoads tree
    let cfg : JVal := .obj [
      ("document", .obj [
        ("fileType", .str (Py.dropFirstChar ext)),
        ("key", .str key),
        ("title", .str name),
        ("url", .str (sUrl ++ "/download/" ++ fileId))]),
      ("documentType", .str docType),
      ("editorConfig", .obj [
        ("callbackUrl", .str (sUrl ++ "/callback/" ++ fileId)),
        ("lang", cfgGet env jsonLoads tree "ui.language" (.str "zh-CN")),
        ("user", .obj [
          ("id", cfgGet env jsonLoads tree "editor.default_user_id" (.str "user1")),
          ("name", cfgGet env jsonLoads tree "editor.default_user_name" (.str "User"))])]),
      ("width", .str "100%"),
      ("height", .str "600px")]
    if jwtSigningOn env jsonLoads tree then
      .ok (jSet cfg "token" (.str (genToken cfg)))
    else .ok cfg
  | some _ => .error ()
  | none => .error ()

/-- `get_preview_config` (main.py lines 241-318) after the 404 existence
check; same conventions as `getEditorConfig`. -/
def getPreviewConfig (env : String → Option String)
    (jsonLoads : String → Option JVal) (tree : JVal) (genToken : JVal → String)
    (fileId : String) (metadata : JVal) (nowSecs : Nat) : Except Unit JVal :=
  match jGet metadata "original_name" with
  | some (.str name) =>
    let ext := Py.lowerAscii (pySuffix name)
    let docType := documentTypeOf ext
    let key := "preview_" ++ fileId ++ "_" ++ Py.decimalRepr nowSecs
    let sUrl := serverUrl env jsonLoads tree
    let cfg : JVal := .obj [
      ("document", .obj [
        ("fileType", .str (Py.dropFirstChar ext)),
        ("key", .str key),
        ("title", .str name),
        ("url", .str (sUrl ++ "/download/" ++ fileId))]),
      ("documentType", .str docType),
      ("editorConfig", .obj [
        ("mode", .str "view"),
        ("lang", cfgGet env jsonLoads tree "ui.language" (.str "zh-CN")),
        ("user", .obj [
          ("id", cfgGet env jsonLoads tree "editor.default_user_id" (.str "user1")),
          ("name", cfgGet env jsonLoads tree "editor.default_user_name" (.str "User"))]),
        ("customization", .obj [
          ("autosave", .bool false),
          ("comments", .bool false),
          ("compactToolbar", .bool true),
          ("help", .bool false),
          ("hideRightMenu", .bool true),
          ("hideRulers", .bool true),
          ("integrationMode", .str "embed"),
          ("toolbarNoTabs", .bool true),
          ("zoom", .int 100),
          ("goback", .bool false),
          ("chat", .bool false),
          ("plugins", .bool false),
          ("macros", .bool false)]),
        ("embedded", .obj [
          ("saveUrl", .str ""),
          ("embedUrl", .str ""),
          ("shareUrl", .str ""),
          ("toolbarDocked", .str "top")])]),
      ("width", .str "100%"),
      ("height", .str "600px")]
    if jwtSigningOn env jsonLoads tree then
      .ok (jSet cfg "token" (.str (genToken cfg)))
    else .ok cfg
  | some _ => .error ()
  | none => .error ()

/-- `{"error": 0}` — the happy-path callback response. -/
def okResp : JVal := .obj [("error", .int 0)]

/-- The short-circuit response for a failed token verification. -/
def invalidTokenResp : JVal :=
  .obj [("error", .int 1), ("message", .str "Invalid token")]

/-- The outer `except` response `{"error": 1, "message": str(e)}`; the
exception text is not modelled. -/
def exnResp : JVal :=
  .obj [("error", .int 1), ("message", .str "exception")]

/-- Python `status == 2` on the JSON value of the `status` field (a
float-valued `2.0`, which Python would also accept, is not modelled; the
embedded claims use integer statuses). -/
def statusIsTwo : JVal → Bool
  | .int n => n == 2
  | _ => false

/-- `onlyoffice_callback` (main.py lines 320-373) after FastAPI's JSON body
parsing.  `verify` is the JWT verification black box (`True` = accepted);
`fetch` maps a URL to `(status_code, body)`.  Returns the upload directory
after the call and the response JSON. -/
def callback (env : String → Option String) (jsonLoads : String → Option JVal)
    (tree : JVal) (verify : String → Bool) (fetch : String → Nat × String)
    (store : FileStore) (fileId : String) (request : JVal) (now : String) :
    FileStore × JVal :=
  let jwtOn := pyTruthy (cfgGet env jsonLoads tree "onlyoffice.jwt_enabled" (.bool true))
  let tokenRejected :=
    jwtOn && (match jGet request "token" with
      | some (.str tk) => !(verify tk)
      | some _ => true      -- non-string token: jwt.decode raises, caught by the inner except
      | none => false)      -- no token: verification is skipped entirely
  if tokenRejected then (store, invalidTokenResp)
  else
    let status := (jGet request "status").getD (.int 0)
    if statusIsTwo status then
      match jGet request "url" with
      | some (.str u) =>
        if u = "" then (store, okResp)   -- falsy URL: no download attempted
        else
          let (code, body) := fetch u
          if code = 200 then
            match fsLookup store (fileId ++ ".json") with
            | some (.meta m) =>
              match jGet m "stored_name" with
              | some (.str storedName) =>
                let store1 := fsWrite store storedName (.bin body)
                let m2 := jSet m "last_modified" (.str now)
                let store2 := fsWrite store1 (fileId ++ ".json") (.meta m2)
                (store2, okResp)
              | some _ => (store, exnResp)   -- non-string stored_name: TypeError in Path join
              | none => (store, exnResp)     -- KeyError on stored_name
            | some (.bin _) => (store, exnResp)  -- sidecar path holds non-JSON data: json.loads raises
            | none => (store, okResp)            -- metadata_path.exists() is false: skip
          else (store, okResp)                   -- non-2xx download: logged, skipped
      | some v =>
        -- non-string truthy URL: httpx raises, caught by the outer except
        if pyTruthy v then (store, exnResp) else (store, okResp)
      | none => (store, okResp)
    else (store, okResp)

end Main

/-! ### Helper lemmas -/

/-- Whether a JSON value is a mapping. -/
def JVal.isObjB : JVal → Bool
  | .obj _ => true
  | _ => false

theorem string_data_inj {s t : String} (h : s.data = t.data) : s = t := by
  cases s; cases t; simp_all

theorem string_append_left_cancel {p s t : String} (h : p ++ s = p ++ t) :
    s = t := by
  apply string_data_inj
  have h2 := congrArg String.data h
  rw [String.data_append, String.data_append] at h2
  exact List.append_cancel_left h2

theorem splitCharAux_ne_nil (sep : Char) :
    ∀ (cs : List Char) (cur : List Char), Py.splitCharAux sep cur cs ≠ [] := by
  intro cs
  induction cs with
  | nil => intro cur; simp [Py.splitCharAux]
  | cons c rest ih =>
    intro cur
    by_cases h : c = sep <;> simp [Py.splitCharAux, h, ih]

theorem splitChar_ne_nil (sep : Char) (s : String) : Py.splitChar sep s ≠ [] :=
  splitCharAux_ne_nil sep s.data []

/-- Reconstruct a number from its least-significant-first digits. -/
def valRev : List Nat → Nat
  | [] => 0
  | d :: ds => d + 10 * valRev ds

theorem toDigitsRev_val (fuel : Nat) : ∀ n : Nat, n ≤ fuel →
    valRev (Py.toDigitsRev fuel n) = n := by
  induction fuel with
  | zero =>
    intro n h
    interval_cases n
    rfl
  | succ f ih =>
    intro n h
    by_cases h0 : n = 0
    · subst h0; simp [Py.toDigitsRev, valRev]
    · rw [Py.toDigitsRev, if_neg h0]
      rw [valRev, ih (n / 10) ?_]
      · exact Nat.mod_add_div n 10
      · have : n / 10 < n := Nat.div_lt_self (Nat.pos_of_ne_zero h0) (by omega)
        omega

theorem toDigitsRev_lt (fuel : Nat) : ∀ (n d : Nat),
    d ∈ Py.toDigitsRev fuel n → d < 10 := by
  induction fuel with
  | zero => intro n d h; simp [Py.toDigitsRev] at h
  | succ f ih =>
    intro n d h
    by_cases h0 : n = 0
    · subst h0; simp [Py.toDigitsRev] at h
    · rw [Py.toDigitsRev, if_neg h0] at h
      rcases List.mem_cons.mp h with h1 | h1
      · subst h1; exact Nat.mod_lt _ (by omega)
      · exact ih _ _ h1

theorem digitChar10_toNat {d : Nat} (h : d < 10) :
    (Py.digitChar10 d).toNat = 48 + d := by
  interval_cases d <;> rfl

theorem digitChar10_inj {a b : Nat} (ha : a < 10) (hb : b < 10)
    (h : Py.digitChar10 a = Py.digitChar10 b) : a = b := by
  have h1 := digitChar10_toNat ha
  have h2 := digitChar10_toNat hb
  have h3 := congrArg Char.toNat h
  omega

theorem map_digitChar10_inj : ∀ {l1 l2 : List Nat},
    (∀ d ∈ l1, d < 10) → (∀ d ∈ l2, d < 10) →
    l1.map Py.digitChar10 = l2.map Py.digitChar10 → l1 = l2 := by
  intro l1
  induction l1 with
  | nil =>
    intro l2 _ _ h
    cases l2 with
    | nil => rfl
    | cons b bs => simp at h
  | cons a as ih =>
    intro l2 h1 h2 h
    cases l2 with
    | nil => simp at h
    | cons b bs =>
      simp only [List.map_cons, List.cons.injEq] at h
      have hab : a = b :=
        digitChar10_inj (h1 a (by simp)) (h2 b (by simp)) h.1
      have ht : as = bs :=
        ih (fun d hd => h1 d (by simp [hd])) (fun d hd => h2 d (by simp [hd])) h.2
      rw [hab, ht]

theorem asString_inj {l1 l2 : List Char} (h : List.asString l1 = List.asString l2) :
    l1 = l2 := by
  have h2 := congrArg String.data h
  simpa [List.asString] using h2

theorem decimalRepr_inj {n m : Nat} (h : Py.decimalRepr n = Py.decimalRepr m) :
    n = m := by
  by_cases hn : n = 0 <;> by_cases hm : m = 0
  · omega
  · exfalso
    rw [Py.decimalRepr, Py.decimalRepr, if_pos hn, if_neg hm] at h
    have hd := congrArg String.data h.symm
    simp only [List.asString] at hd
    -- hd : the mapped digit list equals ['0']
    have h0 : ((Py.toDigitsRev m m).reverse).map Py.digitChar10 = ['0'] := hd
    rcases hrev : (Py.toDigitsRev m m).reverse with _ | ⟨d, ds⟩
    · rw [hrev] at h0; simp at h0
    · rw [hrev] at h0
      simp only [List.map_cons, List.cons.injEq] at h0
      have hds : ds = [] := by
        have := h0.2
        rcases ds with _ | _ <;> simp_all
      subst hds
      have hdm : Py.toDigitsRev m m = [d] := by
        have := congrArg List.reverse hrev
        simpa using this
      have hd10 : d < 10 := toDigitsRev_lt m m d (by rw [hdm]; simp)
      have hd0 : d = 0 := by
        have := congrArg Char.toNat h0.1
        rw [digitChar10_toNat hd10] at this
        have h48 : ('0' : Char).toNat = 48 := rfl
        omega
      have := toDigitsRev_val m m (le_refl m)
      rw [hdm, hd0] at this
      simp [valRev] at this
      omega
  · exfalso
    rw [Py.decimalRepr, Py.decimalRepr, if_neg hn, if_pos hm] at h
    have hd := congrArg String.data h
    simp only [List.asString] at hd
    have h0 : ((Py.toDigitsRev n n).reverse).map Py.digitChar10 = ['0'] := hd
    rcases hrev : (Py.toDigitsRev n n).reverse with _ | ⟨d, ds⟩
    · rw [hrev] at h0; simp at h0
    · rw [hrev] at h0
      simp only [List.map_cons, List.cons.injEq] at h0
      have hds : ds = [] := by
        have := h0.2
        rcases ds with _ | _ <;> simp_all
      subst hds
      have hdm : Py.toDigitsRev n n = [d] := by
        have := congrArg List.reverse hrev
        simpa using this
      have hd10 : d < 10 := toDigitsRev_lt n n d (by rw [hdm]; simp)
      have hd0 : d = 0 := by
        have := congrArg Char.toNat h0.1
        rw [digitChar10_toNat hd10] at this
        have h48 : ('0' : Char).toNat = 48 := rfl
        omega
      have := toDigitsRev_val n n (le_refl n)
      rw [hdm, hd0] at this
      simp [valRev] at this
      omega
  · rw [Py.decimalRepr, Py.decimalRepr, if_neg hn, if_neg hm] at h
    have hl := asString_inj h
    have hmap := map_digitChar10_inj
      (fun d hd => toDigitsRev_lt n n d (List.mem_reverse.mp hd))
      (fun d hd => toDigitsRev_lt m m d (List.mem_reverse.mp hd)) hl
    have hrev := List.reverse_injective hmap
    have e1 := toDigitsRev_val n n (le_refl n)
    have e2 := toDigitsRev_val m m (le_refl m)
    rw [hrev] at e1
    omega

theorem lookupKV_setKV_self (kvs : List (String × JVal)) (k : String) (v : JVal) :
    JVal.lookupKV (JVal.setKV kvs k v) k = some v := by
  induction kvs with
  | nil => simp [JVal.setKV, JVal.lookupKV]
  | cons p rest ih =>
    obtain ⟨k', v'⟩ := p
    by_cases h : k' = k <;> simp [JVal.setKV, JVal.lookupKV, h, ih]

theorem setPath_getPath : ∀ (ks : List String) (t t' v d : JVal),
    Config.setPath t ks v = .ok t' → Config.getPath t' ks d = v := by
  intro ks
  induction ks with
  | nil =>
    intro t t' v d h
    cases t <;> simp [Config.setPath] at h
  | cons k rest ih =>
    intro t t' v d h
    cases rest with
    | nil =>
      cases t <;> simp [Config.setPath] at h
      case obj kvs =>
        subst h
        simp [Config.getPath, lookupKV_setKV_self]
    | cons k2 rest2 =>
      cases t <;> simp [Config.setPath] at h
      case obj kvs =>
        rcases hs : Config.setPath
            (match JVal.lookupKV kvs k with
              | some s => s
              | none => JVal.obj []) (k2 :: rest2) v with e | s'
        · rw [hs] at h; simp at h
        · rw [hs] at h
          simp at h
          subst h
          simp only [Config.getPath, lookupKV_setKV_self]
          exact ih _ _ _ _ hs

theorem blockedPath_empty_obj (l : List String) :
    Config.blockedPath (.obj []) l = false := by
  cases l <;> simp [Config.blockedPath, JVal.lookupKV]

theorem setPath_error_iff : ∀ (ks : List String) (t v : JVal), ks ≠ [] →
    (Config.setPath t ks v = .error () ↔
      (JVal.isObjB t = false ∨ Config.blockedPath t ks.dropLast = true)) := by
  intro ks
  induction ks with
  | nil => intro t v h; exact absurd rfl h
  | cons k rest ih =>
    intro t v _
    cases rest with
    | nil =>
      cases t <;>
        simp [Config.setPath, JVal.isObjB, Config.blockedPath, List.dropLast]
    | cons k2 rest2 =>
      cases t <;>
        try simp [Config.setPath, JVal.isObjB, Config.blockedPath]
      case obj kvs =>
        rcases hlk : JVal.lookupKV kvs k with _ | sub
        · -- missing intermediate: a fresh mapping is created, never blocked
          rcases hs : Config.setPath (JVal.obj []) (k2 :: rest2) v with e | s'
          · exfalso
            obtain ⟨⟩ := e
            have := (ih (JVal.obj []) v (by simp)).mp hs
            rcases this with h1 | h1
            · simp [JVal.isObjB] at h1
            · rw [blockedPath_empty_obj] at h1; simp at h1
          · simp
        · rcases sub with _ | b | n | lit | s0 | xs | kvs2
          case obj kvs2 =>
            -- existing mapping intermediate: blocking is decided deeper
            rcases hs : Config.setPath (JVal.obj kvs2) (k2 :: rest2) v with e | s'
            · obtain ⟨⟩ := e
              have := (ih (JVal.obj kvs2) v (by simp)).mp hs
              rcases this with h1 | h1
              · simp [JVal.isObjB] at h1
              · simp [h1]
            · cases hb : Config.blockedPath (JVal.obj kvs2) (k2 :: rest2).dropLast with
              | false => simp [hb]
              | true =>
                have := (ih (JVal.obj kvs2) v (by simp)).mpr (Or.inr hb)
                rw [hs] at this
                simp at this
          -- existing non-mapping intermediate: the walk always raises
          all_goals exact iff_of_true rfl rfl

theorem fsLookup_append_none {st : Main.FileStore} {k : String}
    (h : Main.fsLookup st k = none) (l : Main.FileStore) :
    Main.fsLookup (st ++ l) k = Main.fsLookup l k := by
  induction st with
  | nil => simp
  | cons p rest ih =>
    obtain ⟨k', v'⟩ := p
    by_cases hk : k' = k
    · simp [Main.fsLookup, hk] at h
    · simp only [Main.fsLookup, if_neg hk] at h
      simpa [Main.fsLookup, hk] using ih h

theorem fsWrite_fresh {st : Main.FileStore} {k : String}
    (h : Main.fsLookup st k = none) (v : Main.FileData) :
    Main.fsWrite st k v = st ++ [(k, v)] := by
  induction st with
  | nil => simp [Main.fsWrite]
  | cons p rest ih =>
    obtain ⟨k', v'⟩ := p
    by_cases hk : k' = k
    · simp [Main.fsLookup, hk] at h
    · simp only [Main.fsLookup, if_neg hk] at h
      simp [Main.fsWrite, hk, ih h]

/-! ### Claims -/

/-- Claim C3: for every dotted key whose corresponding environment variable
(key uppercased, dots replaced by underscores) is set, `Config.get` returns
the type-coerced environment value, regardless of the file-backed tree and
of the default argument. -/
theorem env_override_wins (env : String → Option String)
    (jl : String → Option JVal) (tree default : JVal) (key v : String)
    (h : env (Config.envKey key) = some v) :
    Config.cfgGet env jl tree key default = Config.convertEnvValue jl v := by
  simp [Config.cfgGet, h]

/-- Witness for C3: with `SERVER_HOST=42` set, `get("server.host")` is the
coerced integer `42`, although the default tree stores the string
`10.0.51.143` and the call's default differs too. -/
theorem env_override_wins_witness :
    (fun s => if s = "SERVER_HOST" then some "42" else none)
        (Config.envKey "server.host") = some "42" ∧
    Config.cfgGet (fun s => if s = "SERVER_HOST" then some "42" else none)
        (fun _ => none) Config.defaultConfig "server.host" JVal.null
      = Config.convertEnvValue (fun _ => none) "42" ∧
    Config.convertEnvValue (fun _ => none) "42" = JVal.int 42 :=
  ⟨rfl,
   env_override_wins (fun s => if s = "SERVER_HOST" then some "42" else none)
     (fun _ => none) Config.defaultConfig JVal.null "server.host" "42" rfl,
   rfl⟩

/-- Counterexample for C4: the claim's ordered rule (int attempt before
float attempt, and JSON recognition for any valid array/object text) differs
from the code.  On `"1e5"` (float-parseable, no dot) the code returns the
raw string while the claimed rule yields a float; on `" [1]"` (valid JSON
array text with leading whitespace) the code returns the raw string while
the claimed rule yields the parsed array. -/
theorem convert_env_value_order_counterexample :
    Config.convertEnvValue
        (fun s => if s = " [1]" then some (JVal.arr [JVal.int 1]) else none)
        "1e5" = JVal.str "1e5" ∧
    Config.convertEnvValueClaim
        (fun s => if s = " [1]" then some (JVal.arr [JVal.int 1]) else none)
        "1e5" = JVal.float "1e5" ∧
    JVal.str "1e5" ≠ JVal.float "1e5" ∧
    Config.convertEnvValue
        (fun s => if s = " [1]" then some (JVal.arr [JVal.int 1]) else none)
        " [1]" = JVal.str " [1]" ∧
    Config.convertEnvValueClaim
        (fun s => if s = " [1]" then some (JVal.arr [JVal.int 1]) else none)
        " [1]" = JVal.arr [JVal.int 1] ∧
    JVal.str " [1]" ≠ JVal.arr [JVal.int 1] :=
  ⟨rfl, rfl, fun h => JVal.noConfusion h, rfl, rfl, fun h => JVal.noConfusion h⟩

/-- Claim C4 (amended): the coercion applied to environment values is:
case-insensitive `true`/`false` yields a boolean; else, when the text
contains a dot, a value parseable as a float yields a float; when it
contains no dot, a value parseable as an integer yields an integer; a failed
numeric attempt falls through; then text starting with `[` or a brace that
parses as JSON yields the parsed structure; else the raw string is
returned. -/
theorem convert_env_value_amended_rule (jl : String → Option JVal)
    (value : String) :
    Config.convertEnvValue jl value = Config.convertEnvValueAmended jl value := by
  unfold Config.convertEnvValue Config.convertEnvValueAmended
  by_cases hb : (Py.lowerAscii value = "true" || Py.lowerAscii value = "false") = true
  · simp only [hb, if_true]
  · simp only [Bool.not_eq_true] at hb
    simp only [hb, Bool.false_eq_true, if_false]
    by_cases hd : '.' ∈ value.data
    · by_cases hf : Py.floatParses value = true <;>
        simp [hd, hf]
    · by_cases hi : Py.intParses value = true <;>
        simp [hd, hi]

/-- Counterexample for C6: the claim quantifies over every dotted key, but
`set` is not total — on the default tree, `set("server.host.x", 1)` raises a
`TypeError` (the intermediate `server.host` is a string), so the
set/save/load sequence cannot yield `get(K) == V` there. -/
theorem set_save_load_roundtrip_counterexample :
    Config.setConfig Config.defaultConfig "server.host.x" (JVal.int 1)
      = Except.error () := rfl

/-- Claim C6 (amended): for every dotted key not shadowed by an environment
override and every value, when `set` succeeds (no existing intermediate is a
non-mapping), `set`; `save`; fresh `load` yields `get(K) == V`. -/
theorem set_save_load_roundtrip (env : String → Option String)
    (jl : String → Option JVal) (tree t2 : JVal) (key : String) (v d : JVal)
    (henv : env (Config.envKey key) = none)
    (hset : Config.setConfig tree key v = .ok t2) :
    Config.cfgGet env jl (Config.loadConfig (Config.saveConfig t2)) key d = v := by
  simp only [Config.loadConfig, Config.saveConfig, Config.cfgGet, henv]
  exact setPath_getPath _ _ _ _ _ hset

/-- Witness for C6: over an empty tree, `set("a.b", 7)`; `save`; `load`;
`get("a.b")` returns `7` (no environment override set). -/
theorem set_save_load_roundtrip_witness :
    (fun (_ : String) => (none : Option String)) (Config.envKey "a.b") = none ∧
    Config.setConfig (JVal.obj []) "a.b" (JVal.int 7)
      = .ok (JVal.obj [("a", JVal.obj [("b", JVal.int 7)])]) ∧
    Config.cfgGet (fun _ => none) (fun _ => none)
      (Config.loadConfig (Config.saveConfig
        (JVal.obj [("a", JVal.obj [("b", JVal.int 7)])]))) "a.b" JVal.null
      = JVal.int 7 :=
  ⟨rfl, rfl,
   set_save_load_roundtrip (fun _ => none) (fun _ => none) (JVal.obj [])
     (JVal.obj [("a", JVal.obj [("b", JVal.int 7)])]) "a.b" (JVal.int 7)
     JVal.null rfl rfl⟩

/-- Claim C10: over a mapping root, `set` raises exactly when some existing
intermediate segment of the dotted key is bound to a non-mapping value; when
every existing intermediate is a mapping, `set` succeeds and assigns the
leaf (missing intermediates are created). -/
theorem set_intermediate_non_mapping (t : JVal) (key : String) (v : JVal)
    (hobj : JVal.isObjB t = true) :
    (Config.setConfig t key v = .error () ↔
      Config.blockedPath t ((Py.splitChar '.' key).dropLast) = true) ∧
    (Config.blockedPath t ((Py.splitChar '.' key).dropLast) = false →
      ∃ t2, Config.setConfig t key v = .ok t2 ∧
        ∀ d, Config.getPath t2 (Py.splitChar '.' key) d = v) := by
  have hne := splitChar_ne_nil '.' key
  have hiff := setPath_error_iff (Py.splitChar '.' key) t v hne
  constructor
  · rw [Config.setConfig, hiff]
    simp [hobj]
  · intro hb
    rcases hs : Config.setConfig t key v with e | t2
    · obtain ⟨⟩ := e
      rw [Config.setConfig] at hs
      have := hiff.mp hs
      rcases this with h1 | h1
      · rw [hobj] at h1; cases h1
      · rw [h1] at hb; cases hb
    · refine ⟨t2, rfl, fun d =>
        setPath_getPath (Py.splitChar '.' key) t t2 v d ?_⟩
      rw [Config.setConfig] at hs
      exact hs

/-- Witness for C10: on the default tree, `set("server.host.x", 1)` raises —
the intermediate `server.host` exists and is bound to a string, and the
blocking test confirms it. -/
theorem set_intermediate_non_mapping_witness :
    JVal.isObjB Config.defaultConfig = true ∧
    Config.setConfig Config.defaultConfig "server.host.x" (JVal.int 1)
      = Except.error () ∧
    Config.blockedPath Config.defaultConfig
      ((Py.splitChar '.' "server.host.x").dropLast) = true :=
  ⟨rfl,
   (set_intermediate_non_mapping Config.defaultConfig "server.host.x"
     (JVal.int 1) rfl).1.mpr rfl,
   rfl⟩

/-- Counterexample for C5: uploading a file whose original extension is
`.json` makes the stored binary name collide with the metadata sidecar name
— the sidecar write overwrites the just-written binary and the upload
directory gains a single file, not two distinct ones. -/
theorem upload_json_extension_collision :
    Main.uploadFile [] "f" "a.json" "c" "T"
      = Except.ok ([("f.json", Main.FileData.meta (JVal.obj [
          ("id", JVal.str "f"),
          ("original_name", JVal.str "a.json"),
          ("stored_name", JVal.str "f.json"),
          ("upload_time", JVal.str "T"),
          ("size", JVal.int 1)]))], "f") := rfl

/-- Claim C5 (amended): a successful upload with a non-empty filename whose
extension is not `.json` writes the binary first and then the sidecar at two
distinct fresh names, recording identifier, original name, stored name,
upload timestamp and size, and returns the identifier. -/
theorem upload_creates_two_distinct_files (store : Main.FileStore)
    (fileId filename content now : String)
    (hname : filename ≠ "")
    (hext : Main.pySuffix filename ≠ ".json")
    (hfresh1 : Main.fsLookup store (fileId ++ Main.pySuffix filename) = none)
    (hfresh2 : Main.fsLookup store (fileId ++ ".json") = none) :
    Main.uploadFile store fileId filename content now
      = Except.ok (store ++ [
          (fileId ++ Main.pySuffix filename, Main.FileData.bin content),
          (fileId ++ ".json", Main.FileData.meta (JVal.obj [
            ("id", JVal.str fileId),
            ("original_name", JVal.str filename),
            ("stored_name", JVal.str (fileId ++ Main.pySuffix filename)),
            ("upload_time", JVal.str now),
            ("size", JVal.int content.length)]))], fileId) ∧
    fileId ++ Main.pySuffix filename ≠ fileId ++ ".json" := by
  have hne : fileId ++ Main.pySuffix filename ≠ fileId ++ ".json" :=
    fun h => hext (string_append_left_cancel h)
  constructor
  · have h2 : Main.fsLookup
        (store ++ [(fileId ++ Main.pySuffix filename, Main.FileData.bin content)])
        (fileId ++ ".json") = none := by
      rw [fsLookup_append_none hfresh2]
      simp [Main.fsLookup, hne]
    rw [Main.uploadFile, if_neg hname]
    simp only [fsWrite_fresh hfresh1, fsWrite_fresh h2]
    simp
  · exact hne

/-- Witness for C5: uploading `b.docx` over an empty directory creates the
binary `f.docx` and the sidecar `f.json`, two distinct files. -/
theorem upload_creates_two_distinct_files_witness :
    Main.uploadFile [] "f" "b.docx" "cc" "T"
      = Except.ok (([] : Main.FileStore) ++ [
          ("f" ++ Main.pySuffix "b.docx", Main.FileData.bin "cc"),
          ("f" ++ ".json", Main.FileData.meta (JVal.obj [
            ("id", JVal.str "f"),
            ("original_name", JVal.str "b.docx"),
            ("stored_name", JVal.str ("f" ++ Main.pySuffix "b.docx")),
            ("upload_time", JVal.str "T"),
            ("size", JVal.int ("cc" : String).length)]))], "f") ∧
    "f" ++ Main.pySuffix "b.docx" ≠ "f" ++ ".json" :=
  upload_creates_two_distinct_files [] "f" "b.docx" "cc" "T"
    (by decide) (by decide) rfl rfl

/-- Claim C1: one corrupt sidecar (unparseable, or missing a required field)
anywhere in the upload directory makes the whole listing raise — the
well-formed sidecars' summaries are not returned.  The endpoint has no
handler for this, contradicting the spec's requirement that corrupt sidecars
must not crash the listing. -/
theorem list_files_crashes_on_corrupt_sidecar (jl : String → Option JVal)
    (pre post : List String) (c : String)
    (hc : Main.summarize jl c = .error ()) :
    Main.listFiles jl (pre ++ c :: post) = .error () := by
  rw [Main.listFiles]
  suffices h : Main.collectSummaries jl (pre ++ c :: post) = .error () by
    rw [h]
  induction pre with
  | nil =>
    rw [List.nil_append, Main.collectSummaries, hc]
  | cons hd rest ih =>
    rw [List.cons_append, Main.collectSummaries]
    rcases hh : Main.summarize jl hd with ⟨⟩ | v
    · rfl
    · rw [ih]

/-- Witness for C1: a directory holding one corrupt sidecar (`bad`, which the
JSON parser rejects) and one well-formed sidecar (`good`): the listing
raises instead of returning the good summary (which, alone, would
succeed). -/
theorem list_files_crashes_on_corrupt_sidecar_witness :
    Main.summarize (fun s => if s = "good" then some (JVal.obj [
        ("id", JVal.str "f"), ("original_name", JVal.str "a.docx"),
        ("upload_time", JVal.str "T"), ("size", JVal.int 3)]) else none) "bad"
      = .error () ∧
    Main.listFiles (fun s => if s = "good" then some (JVal.obj [
        ("id", JVal.str "f"), ("original_name", JVal.str "a.docx"),
        ("upload_time", JVal.str "T"), ("size", JVal.int 3)]) else none)
        (["bad", "good"])
      = .error () ∧
    Main.listFiles (fun s => if s = "good" then some (JVal.obj [
        ("id", JVal.str "f"), ("original_name", JVal.str "a.docx"),
        ("upload_time", JVal.str "T"), ("size", JVal.int 3)]) else none)
        (["good"])
      = .ok [JVal.obj [("id", JVal.str "f"), ("name", JVal.str "a.docx"),
          ("upload_time", JVal.str "T"), ("size", JVal.int 3)]] :=
  ⟨rfl,
   list_files_crashes_on_corrupt_sidecar
     (fun s => if s = "good" then some (JVal.obj [
        ("id", JVal.str "f"), ("original_name", JVal.str "a.docx"),
        ("upload_time", JVal.str "T"), ("size", JVal.int 3)]) else none)
     [] ["good"] "bad" rfl,
   rfl⟩

/-- Claim C8: while JWT signing is enabled, a callback carrying a token that
fails verification returns `{error:1, message:"Invalid token"}` and performs
no file mutation — the upload directory is returned unchanged. -/
theorem callback_invalid_token_no_mutation (env : String → Option String)
    (jl : String → Option JVal) (tree : JVal) (verify : String → Bool)
    (fetch : String → Nat × String) (store : Main.FileStore)
    (fileId : String) (request : JVal) (now tk : String)
    (hjwt : JVal.pyTruthy (Config.cfgGet env jl tree "onlyoffice.jwt_enabled"
      (JVal.bool true)) = true)
    (htok : JVal.jGet request "token" = some (JVal.str tk))
    (hver : verify tk = false) :
    Main.callback env jl tree verify fetch store fileId request now
      = (store, Main.invalidTokenResp) := by
  rw [Main.callback]
  simp [hjwt, htok, hver]

/-- Witness for C8: with the default configuration (signing enabled), a
callback whose token the verifier rejects returns the invalid-token error
and leaves the single stored file untouched. -/
theorem callback_invalid_token_no_mutation_witness :
    JVal.pyTruthy (Config.cfgGet (fun _ => none) (fun _ => none)
      Config.defaultConfig "onlyoffice.jwt_enabled" (JVal.bool true)) = true ∧
    Main.callback (fun _ => none) (fun _ => none) Config.defaultConfig
        (fun _ => false) (fun _ => (200, "new"))
        [("f.docx", Main.FileData.bin "old")] "f"
        (JVal.obj [("token", JVal.str "bad"), ("status", JVal.int 2),
          ("url", JVal.str "u")]) "N"
      = ([("f.docx", Main.FileData.bin "old")], Main.invalidTokenResp) :=
  ⟨rfl,
   callback_invalid_token_no_mutation (fun _ => none) (fun _ => none)
     Config.defaultConfig (fun _ => false) (fun _ => (200, "new"))
     [("f.docx", Main.FileData.bin "old")] "f"
     (JVal.obj [("token", JVal.str "bad"), ("status", JVal.int 2),
       ("url", JVal.str "u")]) "N" "bad" rfl rfl rfl⟩

/-- Claim C9: a callback payload without a `token` field undergoes no
signature verification even when JWT signing is enabled — the result is the
same for every verifier — and with `status == 2` and a fetchable URL it
overwrites the stored binary and sets `last_modified`, with no
authentication check. -/
theorem callback_tokenless_bypasses_verification (env : String → Option String)
    (jl : String → Option JVal) (tree : JVal) (fetch : String → Nat × String)
    (store : Main.FileStore) (fileId : String) (request : JVal)
    (now u body : String) (m : JVal) (sn : String)
    (htok : JVal.jGet request "token" = none)
    (hstatus : JVal.jGet request "status" = some (JVal.int 2))
    (hurl : JVal.jGet request "url" = some (JVal.str u))
    (hu : u ≠ "")
    (hfetch : fetch u = (200, body))
    (hmeta : Main.fsLookup store (fileId ++ ".json")
      = some (Main.FileData.meta m))
    (hsn : JVal.jGet m "stored_name" = some (JVal.str sn)) :
    ∀ verify : String → Bool,
      Main.callback env jl tree verify fetch store fileId request now
        = (Main.fsWrite (Main.fsWrite store sn (Main.FileData.bin body))
            (fileId ++ ".json")
            (Main.FileData.meta (JVal.jSet m "last_modified" (JVal.str now))),
           Main.okResp) := by
  intro verify
  rw [Main.callback]
  simp [htok, hstatus, hurl, hu, hfetch, hmeta, hsn, Main.statusIsTwo]

/-- Witness for C9: default configuration (signing enabled) and a verifier
that rejects everything: a token-less `status=2` callback still overwrites
the stored binary with the fetched content and stamps `last_modified`. -/
theorem callback_tokenless_bypasses_verification_witness :
    Main.callback (fun _ => none) (fun _ => none) Config.defaultConfig
        (fun _ => false) (fun _ => (200, "new"))
        [("f.docx", Main.FileData.bin "old"),
         ("f.json", Main.FileData.meta (JVal.obj [("id", JVal.str "f"),
           ("stored_name", JVal.str "f.docx")]))] "f"
        (JVal.obj [("status", JVal.int 2), ("url", JVal.str "u")]) "N2"
      = ([("f.docx", Main.FileData.bin "new"),
          ("f.json", Main.FileData.meta (JVal.obj [("id", JVal.str "f"),
            ("stored_name", JVal.str "f.docx"),
            ("last_modified", JVal.str "N2")]))], Main.okResp) :=
  callback_tokenless_bypasses_verification (fun _ => none) (fun _ => none)
    Config.defaultConfig (fun _ => (200, "new"))
    [("f.docx", Main.FileData.bin "old"),
     ("f.json", Main.FileData.meta (JVal.obj [("id", JVal.str "f"),
       ("stored_name", JVal.str "f.docx")]))] "f"
    (JVal.obj [("status", JVal.int 2), ("url", JVal.str "u")]) "N2" "u" "new"
    (JVal.obj [("id", JVal.str "f"), ("stored_name", JVal.str "f.docx")])
    "f.docx" rfl rfl rfl (by decide) rfl rfl rfl (fun _ => false)

theorem editorConfig_key_eq (env : String → Option String)
    (jl : String → Option JVal) (tree : JVal) (gen : JVal → String)
    (fileId : String) (metadata : JVal) (t : Nat) (name : String)
    (hname : JVal.jGet metadata "original_name" = some (JVal.str name)) :
    Except.map (fun r => JVal.jGetPath r ["document", "key"])
      (Main.getEditorConfig env jl tree gen fileId metadata t)
    = .ok (some (JVal.str ("edit_" ++ fileId ++ "_" ++ Py.decimalRepr t))) := by
  rw [Main.getEditorConfig, hname]
  cases h : Main.jwtSigningOn env jl tree <;> simp [h] <;> rfl

theorem previewConfig_mode_eq (env : String → Option String)
    (jl : String → Option JVal) (tree : JVal) (gen : JVal → String)
    (fileId : String) (metadata : JVal) (t : Nat) (name : String)
    (hname : JVal.jGet metadata "original_name" = some (JVal.str name)) :
    Except.map (fun r => JVal.jGetPath r ["editorConfig", "mode"])
      (Main.getPreviewConfig env jl tree gen fileId metadata t)
    = .ok (some (JVal.str "view")) := by
  rw [Main.getPreviewConfig, hname]
  cases h : Main.jwtSigningOn env jl tree <;> simp [h] <;> rfl

theorem previewConfig_token_on (env : String → Option String)
    (jl : String → Option JVal) (tree : JVal) (gen : JVal → String)
    (fileId : String) (metadata : JVal) (t : Nat) (name : String)
    (hname : JVal.jGet metadata "original_name" = some (JVal.str name))
    (hsig : Main.jwtSigningOn env jl tree = true) :
    Except.map (fun r => JVal.jHasKey r "token")
      (Main.getPreviewConfig env jl tree gen fileId metadata t) = .ok true := by
  rw [Main.getPreviewConfig, hname]
  simp [hsig]
  rfl

theorem previewConfig_token_off (env : String → Option String)
    (jl : String → Option JVal) (tree : JVal) (gen : JVal → String)
    (fileId : String) (metadata : JVal) (t : Nat) (name : String)
    (hname : JVal.jGet metadata "original_name" = some (JVal.str name))
    (hsig : Main.jwtSigningOn env jl tree = false) :
    Except.map (fun r => JVal.jHasKey r "token")
      (Main.getPreviewConfig env jl tree gen fileId metadata t) = .ok false := by
  rw [Main.getPreviewConfig, hname]
  simp [hsig]
  rfl

/-- Counterexample for C2: the session key depends only on the mode prefix,
the identifier and the epoch second, so the first and the second of two
consecutive `editor-config` requests that observe the same epoch second
(here 100) both receive exactly the key `edit_f_100` — the keys do not
differ. -/
theorem session_key_same_second_collision :
    Except.map (fun r => JVal.jGetPath r ["document", "key"])
      (Main.getEditorConfig (fun _ => none) (fun _ => none)
        Config.defaultConfig (fun _ => "T") "f"
        (JVal.obj [("original_name", JVal.str "a.docx")]) 100)
    = .ok (some (JVal.str "edit_f_100")) := rfl

/-- Claim C2 (amended): two `editor-config` requests for the same identifier
observing different epoch seconds produce different session keys
(`document.key`); requests within the same second share a key. -/
theorem session_key_differs_across_seconds (env : String → Option String)
    (jl : String → Option JVal) (tree : JVal) (gen : JVal → String)
    (fileId : String) (metadata : JVal) (t1 t2 : Nat) (name : String)
    (hname : JVal.jGet metadata "original_name" = some (JVal.str name))
    (hne : t1 ≠ t2) :
    Except.map (fun r => JVal.jGetPath r ["document", "key"])
      (Main.getEditorConfig env jl tree gen fileId metadata t1)
    ≠ Except.map (fun r => JVal.jGetPath r ["document", "key"])
      (Main.getEditorConfig env jl tree gen fileId metadata t2) := by
  rw [editorConfig_key_eq env jl tree gen fileId metadata t1 name hname,
    editorConfig_key_eq env jl tree gen fileId metadata t2 name hname]
  intro h
  simp only [Except.ok.injEq, Option.some.injEq, JVal.str.injEq] at h
  exact hne (decimalRepr_inj (string_append_left_cancel h))

/-- Witness for C2 (amended): requests at epoch seconds 100 and 101 receive
different keys. -/
theorem session_key_differs_across_seconds_witness :
    JVal.jGet (JVal.obj [("original_name", JVal.str "a.docx")])
      "original_name" = some (JVal.str "a.docx") ∧
    (100 : Nat) ≠ 101 ∧
    Except.map (fun r => JVal.jGetPath r ["document", "key"])
      (Main.getEditorConfig (fun _ => none) (fun _ => none)
        Config.defaultConfig (fun _ => "T") "f"
        (JVal.obj [("original_name", JVal.str "a.docx")]) 100)
    ≠ Except.map (fun r => JVal.jGetPath r ["document", "key"])
      (Main.getEditorConfig (fun _ => none) (fun _ => none)
        Config.defaultConfig (fun _ => "T") "f"
        (JVal.obj [("original_name", JVal.str "a.docx")]) 101) :=
  ⟨rfl, by decide,
   session_key_differs_across_seconds (fun _ => none) (fun _ => none)
     Config.defaultConfig (fun _ => "T") "f"
     (JVal.obj [("original_name", JVal.str "a.docx")]) 100 101 "a.docx"
     rfl (by decide)⟩

/-- Claim C7: for existing metadata, the preview configuration always has
`editorConfig.mode == "view"`, and it carries a `token` field exactly when
the configured secret is non-empty and JWT signing is enabled in
configuration. -/
theorem preview_config_view_mode_and_token (env : String → Option String)
    (jl : String → Option JVal) (tree : JVal) (gen : JVal → String)
    (fileId : String) (metadata : JVal) (t : Nat) (name s : String) (b : Bool)
    (hname : JVal.jGet metadata "original_name" = some (JVal.str name))
    (hsec : Main.secretVal env jl tree = JVal.str s)
    (hjwt : Config.cfgGet env jl tree "onlyoffice.jwt_enabled" (JVal.bool true)
      = JVal.bool b) :
    Except.map (fun r => JVal.jGetPath r ["editorConfig", "mode"])
      (Main.getPreviewConfig env jl tree gen fileId metadata t)
    = .ok (some (JVal.str "view")) ∧
    (Except.map (fun r => JVal.jHasKey r "token")
      (Main.getPreviewConfig env jl tree gen fileId metadata t) = .ok true
     ↔ (s ≠ "" ∧ b = true)) := by
  refine ⟨previewConfig_mode_eq env jl tree gen fileId metadata t name hname, ?_⟩
  have hsig : Main.jwtSigningOn env jl tree = (decide (s ≠ "") && b) := by
    simp [Main.jwtSigningOn, hsec, hjwt, JVal.pyTruthy]
  by_cases hs : s = ""
  · have hoff : Main.jwtSigningOn env jl tree = false := by
      rw [hsig, hs]
      simp
    rw [previewConfig_token_off env jl tree gen fileId metadata t name hname hoff]
    simp [hs]
  · cases hb : b with
    | false =>
      have hoff : Main.jwtSigningOn env jl tree = false := by
        rw [hsig, hb]
        simp
      rw [previewConfig_token_off env jl tree gen fileId metadata t name hname hoff]
      simp
    | true =>
      have hon : Main.jwtSigningOn env jl tree = true := by
        rw [hsig, hb]
        simp [hs]
      rw [previewConfig_token_on env jl tree gen fileId metadata t name hname hon]
      simp [hs]

/-- Witness for C7: with the default configuration (non-empty secret, signing
enabled) the preview config for `r.xlsx` is in view mode and carries a
token. -/
theorem preview_config_view_mode_and_token_witness :
    Except.map (fun r => JVal.jGetPath r ["editorConfig", "mode"])
      (Main.getPreviewConfig (fun _ => none) (fun _ => none)
        Config.defaultConfig (fun _ => "T") "f"
        (JVal.obj [("original_name", JVal.str "r.xlsx")]) 7)
    = .ok (some (JVal.str "view")) ∧
    (Except.map (fun r => JVal.jHasKey r "token")
      (Main.getPreviewConfig (fun _ => none) (fun _ => none)
        Config.defaultConfig (fun _ => "T") "f"
        (JVal.obj [("original_name", JVal.str "r.xlsx")]) 7) = .ok true
     ↔ (("wIUxuAv0mXxom895nEGPKG3Bw3hm" : String) ≠ "" ∧ true = true)) :=
  preview_config_view_mode_and_token (fun _ => none) (fun _ => none)
    Config.defaultConfig (fun _ => "T") "f"
    (JVal.obj [("original_name", JVal.str "r.xlsx")]) 7 "r.xlsx"
    "wIUxuAv0mXxom895nEGPKG3Bw3hm" true rfl rfl rfl
